import Mathlib

/-!
Verification development for the sprite-icon-bundler build pipeline.

The pipeline (source file `src/index.ts`-equivalent) reads a directory of
`*.svg` files, assembles one sprite document whose `<defs>` block holds one
`<symbol>` per icon, derives PascalCase identifiers from filenames, emits one
component source per icon plus an aggregate lookup component and a barrel
index, and cleans up stale sprite files from earlier builds.

The filesystem is modelled as an association list of (fileName, content)
pairs; `readdir` is the list of keys, `readFile` is lookup.  The external
collaborators (SVGO optimizer, the react source transform, `ensureWrite`) are
kept abstract: the optimizer never feeds back into any verified quantity
(the content hash is taken over the *pre*-optimization document, exactly as
in the source), the transform is a function parameter, and writes are
modelled by the list of (path, content) pairs or rm targets issued.
-/

/-! ### Character helpers (ASCII) -/

def isLowerCh (c : Char) : Bool := 'a' ≤ c && c ≤ 'z'

def isUpperCh (c : Char) : Bool := 'A' ≤ c && c ≤ 'Z'

def isDigitCh (c : Char) : Bool := '0' ≤ c && c ≤ '9'

def isLetterCh (c : Char) : Bool := isLowerCh c || isUpperCh c

def isAlnumCh (c : Char) : Bool := isLetterCh c || isDigitCh c

/-! ### Identifier derivation

Modelled from the spec: the repository derives identifiers with the external
`camelcase` npm package (`camelcase(stem, { pascalCase: true })`), which is
not part of the repository's sources.  Spec §4.1 (Identifier Deriver):
"given a filename ..., returns a PascalCase identifier with non-alphanumeric
boundaries collapsed, suitable for use as a symbol id and as a code
identifier.  Must be deterministic ...  No error conditions; unsupported
characters are simply dropped/merged."  We model this as: the input is cut
into words at non-alphanumeric characters (which are dropped), at a
lowercase→uppercase boundary, and at a digit→letter boundary; the first
character of each word is uppercased and the words are concatenated. -/

def startsNewWord (prev : Option Char) (c : Char) : Bool :=
  match prev with
  | none => true
  | some p => !isAlnumCh p || (isLowerCh p && isUpperCh c) || (isDigitCh p && isLetterCh c)

def pascalAux (prev : Option Char) : List Char → List Char
  | [] => []
  | c :: rest =>
    if isAlnumCh c then
      (if startsNewWord prev c then c.toUpper else c) :: pascalAux (some c) rest
    else
      pascalAux (some c) rest

def pascalCase (s : String) : String := ⟨pascalAux none s.data⟩

/-! ### String-replacement primitives used by the source

`replaceFirstL l pat rep` models JavaScript `l.replace(pat, rep)` with a
plain-string pattern: only the first occurrence is replaced, and a string
with no occurrence is returned unchanged. -/

def replaceFirstL (l pat rep : List Char) : List Char :=
  match l with
  | [] => []
  | c :: rest =>
    if pat.isPrefixOf (c :: rest) then rep ++ (c :: rest).drop pat.length
    else c :: replaceFirstL rest pat rep

/-- Decidable "pat occurs somewhere in l" scan, mirroring `replaceFirstL`. -/
def containsPat (pat : List Char) : List Char → Bool
  | [] => pat.isEmpty
  | c :: rest => pat.isPrefixOf (c :: rest) || containsPat pat rest

/-- `stripSuffixIfL l suf` models `l.replace(/suf$/, '')`: remove `suf` if it
is a suffix of `l`, otherwise leave `l` unchanged. -/
def stripSuffixIfL (l suf : List Char) : List Char :=
  if suf.isSuffixOf l then l.take (l.length - suf.length) else l

def endsWithL (l suf : List Char) : Bool := suf.isSuffixOf l

/-! ### Filename-derived identities (source `getIcons` and `buildSpriteSVG`)

`componentName` (source line 34): `camelcase(file.replace(/\.svg$/, ''),
{pascalCase: true}) + 'Icon'` — the *anchored* suffix is stripped, then the
stem is PascalCased, then `"Icon"` is appended.

`symbolId` (source line 91): `camelcase(file.replace('.svg', suffix),
{pascalCase: true})` with `suffix = 'Icon'` at the call site — the *first*
occurrence of `".svg"` is replaced by the suffix before PascalCasing. -/

def svgSuffix : List Char := ['.', 's', 'v', 'g']

def componentNameOf (file : String) : String :=
  pascalCase ⟨stripSuffixIfL file.data svgSuffix⟩ ++ "Icon"

def symbolIdOf (suffix : String) (file : String) : String :=
  pascalCase ⟨replaceFirstL file.data svgSuffix suffix.data⟩

def endsSvg (file : String) : Bool := endsWithL file.data svgSuffix

example : componentNameOf "home.svg" = "HomeIcon" := by decide
example : componentNameOf "settings.svg" = "SettingsIcon" := by decide
example : symbolIdOf "Icon" "home.svg" = "HomeIcon" := by decide
example : symbolIdOf "Icon" "a.svg.svg" = "AIconSvg" := by decide
example : componentNameOf "a.svg.svg" = "ASvgIcon" := by decide
example : pascalCase "foo-bar" = "FooBar" := by decide
example : pascalCase "fooBar" = "FooBar" := by decide

/-! ### Lexicographic string order (JavaScript `Array.prototype.sort` default)

`files.sort()` in the source compares strings by code units; we model this
with a Boolean lexicographic comparison on the character lists. -/

def lexLe : List Char → List Char → Bool
  | [], _ => true
  | _ :: _, [] => false
  | a :: as, b :: bs => if a < b then true else if b < a then false else lexLe as bs

def strLeR (s t : String) : Prop := lexLe s.data t.data = true

instance : DecidableRel strLeR := fun _ _ => instDecidableEqBool _ _

lemma lexLe_total : ∀ as bs : List Char, lexLe as bs = true ∨ lexLe bs as = true := by
  intro as
  induction as with
  | nil => intro bs; left; rfl
  | cons a as ih =>
    intro bs
    cases bs with
    | nil => right; rfl
    | cons b bs =>
      rcases lt_trichotomy a b with h | h | h
      · left; simp [lexLe, h]
      · subst h
        rcases ih bs with h2 | h2
        · left; simp [lexLe, lt_irrefl, h2]
        · right; simp [lexLe, lt_irrefl, h2]
      · right; simp [lexLe, h]

lemma lexLe_trans : ∀ as bs cs : List Char,
    lexLe as bs = true → lexLe bs cs = true → lexLe as cs = true := by
  intro as
  induction as with
  | nil => intro bs cs _ _; rfl
  | cons a as ih =>
    intro bs cs h1 h2
    cases bs with
    | nil => simp [lexLe] at h1
    | cons b bs =>
      cases cs with
      | nil => simp [lexLe] at h2
      | cons c cs =>
        simp only [lexLe] at h1 h2 ⊢
        rcases lt_trichotomy a b with hab | hab | hab
        · rcases lt_trichotomy b c with hbc | hbc | hbc
          · simp [lt_trans hab hbc]
          · subst hbc; simp [hab]
          · rw [if_neg (lt_asymm hbc), if_pos hbc] at h2
            simp at h2
        · subst hab
          rw [if_neg (lt_irrefl a), if_neg (lt_irrefl a)] at h1
          rcases lt_trichotomy a c with hac | hac | hac
          · simp [hac]
          · subst hac
            rw [if_neg (lt_irrefl a), if_neg (lt_irrefl a)] at h2 ⊢
            exact ih bs cs h1 h2
          · rw [if_neg (lt_asymm hac), if_pos hac] at h2
            simp at h2
        · rw [if_neg (lt_asymm hab), if_pos hab] at h1
          simp at h1

lemma lexLe_antisymm : ∀ as bs : List Char,
    lexLe as bs = true → lexLe bs as = true → as = bs := by
  intro as
  induction as with
  | nil =>
    intro bs _ h2
    cases bs with
    | nil => rfl
    | cons b bs => simp [lexLe] at h2
  | cons a as ih =>
    intro bs h1 h2
    cases bs with
    | nil => simp [lexLe] at h1
    | cons b bs =>
      simp only [lexLe] at h1 h2
      rcases lt_trichotomy a b with hab | hab | hab
      · rw [if_neg (lt_asymm hab), if_pos hab] at h2
        simp at h2
      · subst hab
        rw [if_neg (lt_irrefl a), if_neg (lt_irrefl a)] at h1 h2
        rw [ih bs h1 h2]
      · rw [if_neg (lt_asymm hab), if_pos hab] at h1
        simp at h1

instance : IsTotal String strLeR := ⟨fun s t => lexLe_total s.data t.data⟩

instance : IsTrans String strLeR := ⟨fun s t u => lexLe_trans s.data t.data u.data⟩

instance : IsAntisymm String strLeR :=
  ⟨fun s t h1 h2 => by
    cases s; cases t
    exact congrArg String.mk (lexLe_antisymm _ _ h1 h2)⟩

/-! ### The input directory

A directory is an association list of (fileName, content); `readdir` yields
the keys in listing order, `readFile` is lookup. -/

abbrev Dir := List (String × String)

def readFileD (d : Dir) (f : String) : String := (d.lookup f).getD ""

/-- Source line 85: `files.filter((file) => file.endsWith('.svg')).sort()`. -/
def svgFilesSorted (d : Dir) : List String :=
  List.insertionSort strLeR ((d.map Prod.fst).filter endsSvg)

/-- Source line 30 (`getIcons`): same filter but *no* sort. -/
def svgFilesUnsorted (d : Dir) : List String :=
  (d.map Prod.fst).filter endsSvg

/-! ### Symbol synthesis (source lines 95–101)

The source uses three pattern-based rewrites on the raw markup:
`content.match(/viewBox="([^"]+)"/)?.[0] ?? ''` to extract the viewBox
attribute text, `.replace(/<svg[^>]+>/, '<symbol id="..." viewBox>')` on the
opening tag, `.replace(/<\/svg>/, '</symbol>')` on the closing tag and
`.replace(/xmlns="[^"]+"/, '')` to drop a namespace declaration.  Each
pattern is of the shape "literal key, then one or more characters excluding a
terminator, then the terminator"; the scan below mirrors the regex engine:
try a match at each position from the left, replace only the first match, and
return the input unchanged when there is none. -/

def matchKeyQuotedAt (key l : List Char) : Option Nat :=
  if key.isPrefixOf l then
    let rest := l.drop key.length
    let inner := rest.takeWhile (fun c => c ≠ '"')
    if 1 ≤ inner.length && inner.length < rest.length then
      some (key.length + inner.length + 1)
    else none
  else none

def findKeyQuoted (key : List Char) : List Char → Option (List Char)
  | [] => none
  | c :: rest =>
    match matchKeyQuotedAt key (c :: rest) with
    | some n => some ((c :: rest).take n)
    | none => findKeyQuoted key rest

def replaceKeyQuoted (key rep : List Char) : List Char → List Char
  | [] => []
  | c :: rest =>
    match matchKeyQuotedAt key (c :: rest) with
    | some n => rep ++ (c :: rest).drop n
    | none => c :: replaceKeyQuoted key rep rest

def svgOpenKey : List Char := ['<', 's', 'v', 'g']

/-- Match of `/<svg[^>]+>/` anchored at the front of `l`. -/
def matchSvgOpenAt (l : List Char) : Option Nat :=
  if svgOpenKey.isPrefixOf l then
    let rest := l.drop 4
    let inner := rest.takeWhile (fun c => c ≠ '>')
    if 1 ≤ inner.length && inner.length < rest.length then
      some (4 + inner.length + 1)
    else none
  else none

def replaceSvgOpen (rep : List Char) : List Char → List Char
  | [] => []
  | c :: rest =>
    match matchSvgOpenAt (c :: rest) with
    | some n => rep ++ (c :: rest).drop n
    | none => c :: replaceSvgOpen rep rest

def viewBoxKey : List Char := "viewBox=\"".data

def xmlnsKey : List Char := "xmlns=\"".data

/-- `content.match(/viewBox="([^"]+)"/)?.[0] ?? ''` (source line 95). -/
def viewBoxOf (content : String) : String :=
  ⟨(findKeyQuoted viewBoxKey content.data).getD []⟩

def symbolOpenTag (symbolId viewBox : String) : String :=
  "<symbol id=\"" ++ symbolId ++ "\" " ++ viewBox ++ ">"

/-- Source lines 98–101: rewrite one raw SVG into a `<symbol>` fragment. -/
def toSymbol (content symbolId : String) : String :=
  let s1 := replaceSvgOpen (symbolOpenTag symbolId (viewBoxOf content)).data content.data
  let s2 := replaceFirstL s1 "</svg>".data "</symbol>".data
  ⟨replaceKeyQuoted xmlnsKey [] s2⟩

/-! ### Sprite assembly (source lines 84–112) -/

def spriteSymbols (d : Dir) (suffix : String) : List String :=
  (svgFilesSorted d).map fun f => toSymbol (readFileD d f) (symbolIdOf suffix f)

def xmlDecl : String := "<?xml version=\"1.0\" encoding=\"UTF-8\"?>"

def spriteRootOpen : String :=
  "<svg xmlns=\"http://www.w3.org/2000/svg\" xmlns:xlink=\"http://www.w3.org/1999/xlink\">"

/-- The assembled, pre-optimization sprite document (source lines 105–112);
this is the exact string that is both content-hashed and handed to the
external optimizer. -/
def spriteDocument (d : Dir) (suffix : String) : String :=
  String.intercalate "\n"
    ([xmlDecl, spriteRootOpen, "<defs>"] ++ spriteSymbols d suffix ++ ["</defs>", "</svg>"])

example :
    toSymbol "<svg viewBox=\"0 0 24 24\"><path d=\"M0\"/></svg>" "HomeIcon" =
      "<symbol id=\"HomeIcon\" viewBox=\"0 0 24 24\"><path d=\"M0\"/></symbol>" := by
  decide

example :
    toSymbol "<svg xmlns=\"http://www.w3.org/2000/svg\" fill=\"n\"><g/></svg>" "AIcon" =
      "<symbol id=\"AIcon\" ><g/></symbol>" := by
  decide

/-! ### MD5 (source line 121: `crypto.createHash('md5').update(sprite).digest('hex').slice(0, 8)`)

Node's crypto module hashes the UTF-8 encoding of the document string and
renders the 16-byte digest as 32 lowercase hex characters; the source keeps
the first 8.  Machine words are modelled as `Nat` reduced mod 2^32. -/

def w32 (n : Nat) : Nat := n % 4294967296

def mnot (x : Nat) : Nat := 4294967295 - x

def rotl32 (x s : Nat) : Nat := (x * 2 ^ s) % 4294967296 + x / 2 ^ (32 - s)

def md5K : List Nat :=
  [3614090360, 3905402710, 606105819, 3250441966, 4118548399, 1200080426,
   2821735955, 4249261313, 1770035416, 2336552879, 4294925233, 2304563134,
   1804603682, 4254626195, 2792965006, 1236535329, 4129170786, 3225465664,
   643717713, 3921069994, 3593408605, 38016083, 3634488961, 3889429448,
   568446438, 3275163606, 4107603335, 1163531501, 2850285829, 4243563512,
   1735328473, 2368359562, 4294588738, 2272392833, 1839030562, 4259657740,
   2763975236, 1272893353, 4139469664, 3200236656, 681279174, 3936430074,
   3572445317, 76029189, 3654602809, 3873151461, 530742520, 3299628645,
   4096336452, 1126891415, 2878612391, 4237533241, 1700485571, 2399980690,
   4293915773, 2240044497, 1873313359, 4264355552, 2734768916, 1309151649,
   4149444226, 3174756917, 718787259, 3951481745]

def md5S : List Nat :=
  [7, 12, 17, 22, 7, 12, 17, 22, 7, 12, 17, 22, 7, 12, 17, 22,
   5, 9, 14, 20, 5, 9, 14, 20, 5, 9, 14, 20, 5, 9, 14, 20,
   4, 11, 16, 23, 4, 11, 16, 23, 4, 11, 16, 23, 4, 11, 16, 23,
   6, 10, 15, 21, 6, 10, 15, 21, 6, 10, 15, 21, 6, 10, 15, 21]

def utf8Bytes (c : Char) : List Nat :=
  let n := c.toNat
  if n < 128 then [n]
  else if n < 2048 then [192 + n / 64, 128 + n % 64]
  else if n < 65536 then [224 + n / 4096, 128 + n / 64 % 64, 128 + n % 64]
  else [240 + n / 262144, 128 + n / 4096 % 64, 128 + n / 64 % 64, 128 + n % 64]

def strBytes (s : String) : List Nat := (s.data.map utf8Bytes).flatten

def toLEBytes : Nat → Nat → List Nat
  | 0, _ => []
  | k + 1, n => n % 256 :: toLEBytes k (n / 256)

def mdPad (msg : List Nat) : List Nat :=
  let z := (120 - (msg.length + 1) % 64) % 64
  msg ++ [128] ++ List.replicate z 0 ++ toLEBytes 8 (8 * msg.length % 2 ^ 64)

def chunks64Aux : Nat → List Nat → List (List Nat)
  | 0, _ => []
  | _, [] => []
  | fuel + 1, c :: rest => ((c :: rest).take 64) :: chunks64Aux fuel (rest.drop 63)

def chunks64 (l : List Nat) : List (List Nat) := chunks64Aux l.length l

def toWords : List Nat → List Nat
  | a :: b :: c :: d :: rest => (a + 256 * (b + 256 * (c + 256 * d))) :: toWords rest
  | _ => []

def md5Round (m : List Nat) (st : Nat × Nat × Nat × Nat) (i : Nat) : Nat × Nat × Nat × Nat :=
  let a := st.1
  let b := st.2.1
  let c := st.2.2.1
  let d := st.2.2.2
  let f :=
    if i < 16 then (b &&& c) ||| (mnot b &&& d)
    else if i < 32 then (d &&& b) ||| (mnot d &&& c)
    else if i < 48 then b ^^^ c ^^^ d
    else c ^^^ (b ||| mnot d)
  let g :=
    if i < 16 then i
    else if i < 32 then (5 * i + 1) % 16
    else if i < 48 then (3 * i + 5) % 16
    else 7 * i % 16
  let fv := w32 (f + a + md5K.getD i 0 + m.getD g 0)
  (d, w32 (b + rotl32 fv (md5S.getD i 0)), b, c)

def md5Chunk (st : Nat × Nat × Nat × Nat) (chunk : List Nat) : Nat × Nat × Nat × Nat :=
  let m := toWords chunk
  let r := (List.range 64).foldl (md5Round m) st
  (w32 (st.1 + r.1), w32 (st.2.1 + r.2.1), w32 (st.2.2.1 + r.2.2.1), w32 (st.2.2.2 + r.2.2.2))

def md5Digest (msg : List Nat) : List Nat :=
  let st := (chunks64 (mdPad msg)).foldl md5Chunk (1732584193, 4023233417, 2562383102, 271733878)
  toLEBytes 4 st.1 ++ toLEBytes 4 st.2.1 ++ toLEBytes 4 st.2.2.1 ++ toLEBytes 4 st.2.2.2

def hexDigitCh (n : Nat) : Char := if n < 10 then Char.ofNat (48 + n) else Char.ofNat (87 + n)

def bytesToHex (l : List Nat) : List Char :=
  (l.map fun b => [hexDigitCh (b / 16), hexDigitCh (b % 16)]).flatten

def md5Hex (s : String) : String := ⟨bytesToHex (md5Digest (strBytes s))⟩

/-- The 8-character filename hash: `digest('hex').slice(0, 8)`. -/
def md5Hex8 (s : String) : String := ⟨(bytesToHex (md5Digest (strBytes s))).take 8⟩

set_option maxRecDepth 100000

example : md5Hex "" = "d41d8cd98f00b204e9800998ecf8427e" := by decide
example : md5Hex "abc" = "900150983cd24fb0d6963f7d28e17f72" := by decide
example : md5Hex "The quick brown fox jumps over the lazy dog" =
    "9e107d9d372bb6826bd81d3542a419d6" := by decide

/-! ### Configuration (source `Config.output`)

`spritePath` is a single path or a list of paths; `spriteName`, `spriteHref`
are optional.  Paths are plain strings; `resolve(dir, file)` is modelled as
`dir ++ "/" ++ file`. -/

inductive SpritePathCfg where
  | single (p : String)
  | multi (ps : List String)
deriving DecidableEq

structure OutputCfg where
  distPath : String
  spritePath : SpritePathCfg
  spriteName : Option String
  hashSuffix : Bool
  spriteHref : Option String
deriving DecidableEq

/-- Source line 118: `config.output.spriteName ? spriteName : 'sprite-icons'`.
JavaScript truthiness: an empty configured string also falls back to the
default. -/
def spriteBaseName (o : OutputCfg) : String :=
  match o.spriteName with
  | some s => if s = "" then "sprite-icons" else s
  | none => "sprite-icons"

/-- Source lines 117–123: the sprite filename (without the `.svg` extension),
hashed over the pre-optimization document when `hashSuffix` is set. -/
def buildSpriteFileName (o : OutputCfg) (doc : String) : String :=
  if o.hashSuffix then spriteBaseName o ++ "-" ++ md5Hex8 doc else spriteBaseName o

/-- Source `buildSpriteSVG` (lines 77–133), as the pair of the
pre-optimization document and the returned filename. -/
def buildSpriteSVG (d : Dir) (o : OutputCfg) (suffix : String) : String × String :=
  (spriteDocument d suffix, buildSpriteFileName o (spriteDocument d suffix))

/-- Source lines 125–131: the sprite file paths written (one per configured
sprite directory, same content at each). -/
def spriteWriteTargets (o : OutputCfg) (filename : String) : List String :=
  match o.spritePath with
  | .single p => [p ++ "/" ++ filename ++ ".svg"]
  | .multi ps => ps.map fun dir => dir ++ "/" ++ filename ++ ".svg"

/-! ### Per-icon component generation (source `getSvgIconContent`, `getIcons`,
`buildIcons`) -/

structure IconData where
  svg : String
  componentName : String
deriving DecidableEq

/-- Source lines 17–23: the standalone SVG markup handed to the transform,
whose `<use>` fragment reference is `#componentName`. -/
def getSvgIconContent (id spriteHref spriteFileName : String) : String :=
  "<svg fill=\"none\" stroke=\"currentColor\" stroke-width=\"0\" color=\"currentColor\" width=\"1em\" height=\"1em\" >\n<use href=\"" ++
    spriteHref ++ "/" ++ spriteFileName ++ ".svg#" ++ id ++ "\" />\n</svg>"

/-- Source lines 25–43: one IconData per `.svg` file, in readdir order
(this listing is *not* sorted). -/
def getIcons (d : Dir) (spriteHref spriteFileName : String) : List IconData :=
  (svgFilesUnsorted d).map fun file =>
    { svg := getSvgIconContent (componentNameOf file) spriteHref spriteFileName,
      componentName := componentNameOf file }

/-- Source lines 58–72: run the external transform over every icon.  The
fan-out joined by `Promise.all` is modelled by sequential first-failure
semantics: the result is the console log produced and either the first
transform error (re-thrown as-is, after logging the failing icon's name) or
the list of (path, content) writes issued. -/
def buildIconsRun (tr : String → String → Except String String) (distPath : String) :
    List IconData → List String × Except String (List (String × String))
  | [] => ([], .ok [])
  | i :: rest =>
    match tr i.svg i.componentName with
    | .error e => (["Error building " ++ i.componentName], .error e)
    | .ok content =>
      match buildIconsRun tr distPath rest with
      | (log, .error e) => (log, .error e)
      | (log, .ok ws) =>
        (log, .ok ((distPath ++ "/" ++ i.componentName ++ ".tsx", content) :: ws))

/-! ### Aggregate component and barrel index (source `buildIconComponent`,
`exportAll`) -/

def stripIconSuffixS (s : String) : String := ⟨stripSuffixIfL s.data "Icon".data⟩

/-- Source line 177: `icons.map((icon) => icon.componentName.replace(/Icon$/, ''))`. -/
def iconNamesOf (icons : List IconData) : List String :=
  icons.map fun i => stripIconSuffixS i.componentName

/-- Source line 181: the rendered `[$\x7b...join(', ')\x7d]` literal. -/
def renderNameList (names : List String) : String :=
  "[" ++ String.intercalate ", " (names.map fun n => "\x27" ++ n ++ "\x27") ++ "]"

/-- The fixed template text of the aggregate component before the rendered
name list. -/
def iconComponentPre : String :=
  "import \x7b SVGProps, memo \x7d from \x27react\x27;\n\nexport const ICON_NAME_LIST = "

/-- The fixed template text of the aggregate component after the rendered
name list, with the sprite href/filename spliced into the `<use>` reference. -/
def iconComponentPost (spriteFileName : String) (spriteHref : Option String) : String :=
  " as const;\nexport type IconName = typeof ICON_NAME_LIST[number];\n\ninterface IconProps extends Omit<SVGProps<SVGSVGElement>, \x27name\x27> \x7b\n  name: IconName;\n\x7d\n\nexport function Icon(\x7b name, ...props \x7d: IconProps) \x7b\n  return <svg color=\"currentColor\" width=\"1em\" height=\"1em\" \x7b...props\x7d>\n  <use href=\x7b\x60" ++
    spriteHref.getD "" ++ "/" ++ spriteFileName ++
    ".svg#$\x7bname\x7dIcon\x60\x7d />\n  </svg>\n\x7d\n\nexport default memo(Icon);"

/-- Source lines 179–194: the aggregate component source text. -/
def buildIconComponentSource (icons : List IconData) (spriteFileName : String)
    (spriteHref : Option String) : String :=
  iconComponentPre ++ renderNameList (iconNamesOf icons) ++
    iconComponentPost spriteFileName spriteHref

/-- Source lines 171–199: returns the aggregate component source and the icon
list with the aggregate (componentName `"Icon"`) appended. -/
def buildIconComponent (icons : List IconData) (spriteFileName : String)
    (spriteHref : Option String) : String × List IconData :=
  let component := buildIconComponentSource icons spriteFileName spriteHref
  (component, icons ++ [{ componentName := "Icon", svg := component }])

/-- Source lines 154–164: one export statement per icon; the aggregate is
wildcard re-exported, every other icon default re-exported. -/
def exportLine (includeExtension : Bool) (componentName : String) : String :=
  if componentName = "Icon" then "export * from \x27./Icon\x27"
  else
    "export \x7b default as " ++ componentName ++ " \x7d from \x27./" ++ componentName ++
      (if includeExtension then ".js" else "") ++ "\x27"

def exportAll (icons : List IconData) (includeExtension : Bool) : String :=
  String.intercalate "\n" (icons.map fun i => exportLine includeExtension i.componentName)

/-- The component name surfaced by each barrel statement: `componentName`
itself (for the wildcard line, the aggregate module's `Icon` export). -/
def exportedNames (icons : List IconData) : List String := icons.map (·.componentName)

/-! ### Cleanup of stale sprite files (source `cleanupOldSpriteFiles`,
lines 201–236)

`listing dir` is the directory's file list, `none` when the directory does
not exist (the `fs.access` probe fails).  The function below computes the
paths handed to `fs.rm`.  In the list-of-paths branch the source removes
`resolve(dir, file)`; in the single-path branch it removes the bare `file`
name (line 231), which the OS resolves against the process working directory
`cwd`, not against the sprite directory. -/

def startsWithS (s p : String) : Bool := p.data.isPrefixOf s.data

def cleanupRmTargets (cwd : String) (o : OutputCfg) (listing : String → Option (List String)) :
    List String :=
  let base := o.spriteName.getD "sprite-icons"
  match o.spritePath with
  | .multi ps =>
    ps.flatMap fun dir =>
      match listing dir with
      | none => []
      | some files => (files.filter fun f => startsWithS f base).map fun f => dir ++ "/" ++ f
  | .single p =>
    match listing p with
    | none => []
    | some files => (files.filter fun f => startsWithS f base).map fun f => cwd ++ "/" ++ f

/-! ### Orchestration (source `buildSpriteIcons`, lines 250–263) -/

structure BuildResult where
  spriteDoc : String
  spriteFileName : String
  icons : List IconData
  allIcons : List IconData
  indexFile : String
deriving DecidableEq

/-- The pure outputs of one build run: sprite document, sprite filename,
per-file icons, icons including the aggregate, and the barrel file content
(`exportAll(icons, false)`, source line 167).  The symbol-id suffix is the
literal `'Icon'` of source line 254. -/
def buildSpriteIcons (d : Dir) (o : OutputCfg) : BuildResult :=
  let doc := spriteDocument d "Icon"
  let fn := buildSpriteFileName o doc
  let icons := getIcons d (o.spriteHref.getD "") fn
  let all := (buildIconComponent icons fn o.spriteHref).2
  { spriteDoc := doc, spriteFileName := fn, icons := icons, allIcons := all,
    indexFile := exportAll all false }

/-! ### Prefix-scan lemmas for the replacement primitives -/

lemma ipo_append : ∀ (l t : List Char), l.isPrefixOf (l ++ t) = true := by
  intro l t
  induction l with
  | nil => cases t <;> rfl
  | cons c l ih => simp [List.isPrefixOf, ih]

lemma ipo_append_of_le : ∀ (pat x t : List Char), pat.length ≤ x.length →
    pat.isPrefixOf (x ++ t) = pat.isPrefixOf x := by
  intro pat
  induction pat with
  | nil =>
    intro x t _
    cases x <;> cases t <;> rfl
  | cons p ps ih =>
    intro x t h
    cases x with
    | nil => simp at h
    | cons a x =>
      have h' : ps.length ≤ x.length := by simpa using h
      simp [List.isPrefixOf, ih x t h']

/-- `".svg"` cannot begin one character before its own occurrence: the
overlap forces a mismatched literal character. -/
lemma svg_not_at1 (c : Char) : svgSuffix.isPrefixOf (c :: svgSuffix) = false := by
  have h : List.isPrefixOf ['s', 'v', 'g'] svgSuffix = false := by decide
  simp [svgSuffix, List.isPrefixOf, h]

lemma svg_not_at2 (c a : Char) : svgSuffix.isPrefixOf (c :: a :: svgSuffix) = false := by
  have h : List.isPrefixOf ['v', 'g'] svgSuffix = false := by decide
  simp [svgSuffix, List.isPrefixOf, h]

lemma svg_not_at3 (c a b : Char) : svgSuffix.isPrefixOf (c :: a :: b :: svgSuffix) = false := by
  have h : List.isPrefixOf ['g'] svgSuffix = false := by decide
  simp [svgSuffix, List.isPrefixOf, h]

/-- If a stem contains no `".svg"` occurrence, then in `stem ++ ".svg"` the
first (and only) occurrence is the terminal suffix, so `replace('.svg', rep)`
rewrites exactly that suffix. -/
lemma replaceFirst_append_svg (rep : List Char) : ∀ l : List Char,
    containsPat svgSuffix l = false →
    replaceFirstL (l ++ svgSuffix) svgSuffix rep = l ++ rep := by
  intro l
  induction l with
  | nil =>
    intro _
    have hc : svgSuffix.isPrefixOf svgSuffix = true := by decide
    simp [svgSuffix, replaceFirstL] at hc ⊢
  | cons c l ih =>
    intro h
    have h1 : svgSuffix.isPrefixOf (c :: l) = false ∧ containsPat svgSuffix l = false := by
      have h' := h
      simp only [containsPat, Bool.or_eq_false_iff] at h'
      exact h'
    have hcond : svgSuffix.isPrefixOf ((c :: l) ++ svgSuffix) = false := by
      rcases l with _ | ⟨a, _ | ⟨b, _ | ⟨e, l'⟩⟩⟩
      · simpa using svg_not_at1 c
      · simpa using svg_not_at2 c a
      · simpa using svg_not_at3 c a b
      · rw [ipo_append_of_le svgSuffix (c :: a :: b :: e :: l') svgSuffix
          (by simp only [svgSuffix, List.length_cons, List.length_nil]; omega)]
        exact h1.1
    simp only [List.cons_append] at hcond ⊢
    simp [replaceFirstL, hcond, ih h1.2]

lemma strip_append (l suf : List Char) : stripSuffixIfL (l ++ suf) suf = l := by
  have hs : suf.isSuffixOf (l ++ suf) = true := by
    simp [List.isSuffixOf, List.reverse_append, ipo_append]
  simp [stripSuffixIfL, hs, List.length_append]

/-! ### The appended `"Icon"` suffix commutes with PascalCasing -/

lemma pascal_icon (prev : Option Char) :
    pascalAux prev ['I', 'c', 'o', 'n'] = ['I', 'c', 'o', 'n'] := by
  have hA : isAlnumCh 'I' = true := by decide
  have hU : 'I'.toUpper = 'I' := by decide
  have hT : pascalAux (some 'I') ['c', 'o', 'n'] = ['c', 'o', 'n'] := by decide
  simp [pascalAux, hA, hU, hT]
  decide

lemma pascalAux_append_icon : ∀ (l : List Char) (prev : Option Char),
    pascalAux prev (l ++ ['I', 'c', 'o', 'n']) = pascalAux prev l ++ ['I', 'c', 'o', 'n'] := by
  intro l
  induction l with
  | nil => intro prev; simpa using pascal_icon prev
  | cons c l ih =>
    intro prev
    by_cases hc : isAlnumCh c = true
    · simp [pascalAux, hc, ih (some c)]
    · simp [pascalAux, hc, ih (some c)]

/-- Claim C1 (corrected), core equality: for a filename `stem ++ ".svg"`
whose stem contains no `".svg"` occurrence, the sprite symbol id and the
component name are derived identically, and both equal
`PascalCase(stem) ++ "Icon"`.  The sprite emits each `<symbol>` with
`id = symbolIdOf "Icon" file` (see `spriteSymbols`/`toSymbol`) and the
per-icon component references `"#" ++ componentNameOf file` (see
`getSvgIconContent`/`getIcons`), so this equality is exactly the agreement
of the two artifacts' fragment identities. -/
theorem C1_ids_agree_on_plain_names (stem : String)
    (h : containsPat svgSuffix stem.data = false) :
    symbolIdOf "Icon" (stem ++ ".svg") = componentNameOf (stem ++ ".svg") ∧
    componentNameOf (stem ++ ".svg") = pascalCase stem ++ "Icon" := by
  have hdata : (stem ++ ".svg").data = stem.data ++ svgSuffix := by
    cases stem
    rfl
  have h1 : symbolIdOf "Icon" (stem ++ ".svg") = pascalCase ⟨stem.data ++ "Icon".data⟩ := by
    unfold symbolIdOf
    rw [hdata, replaceFirst_append_svg _ _ h]
  have h2 : componentNameOf (stem ++ ".svg") = pascalCase ⟨stem.data⟩ ++ "Icon" := by
    unfold componentNameOf
    rw [hdata, strip_append]
  have h3 : pascalCase ⟨stem.data ++ "Icon".data⟩ = pascalCase ⟨stem.data⟩ ++ "Icon" := by
    unfold pascalCase
    show (⟨pascalAux none (stem.data ++ "Icon".data)⟩ : String) =
      (⟨pascalAux none stem.data⟩ : String) ++ "Icon"
    rw [show "Icon".data = ['I', 'c', 'o', 'n'] from rfl, pascalAux_append_icon]
    rfl
  have h4 : (⟨stem.data⟩ : String) = stem := rfl
  rw [h4] at h2 h3
  exact ⟨h1.trans (h3.trans h2.symm), h2⟩

/-- Claim C1, counterexample: `"a.svg.svg"` ends in `".svg"`, but the sprite
symbol id (`replace('.svg', 'Icon')` rewrites the *first* occurrence) is
`"AIconSvg"` while the component name (anchored `/\.svg$/` strip) is
`"ASvgIcon"`; the two artifacts disagree on the fragment identity. -/
theorem C1_counterexample :
    endsSvg "a.svg.svg" = true ∧
    symbolIdOf "Icon" "a.svg.svg" = "AIconSvg" ∧
    componentNameOf "a.svg.svg" = "ASvgIcon" ∧
    symbolIdOf "Icon" "a.svg.svg" ≠ componentNameOf "a.svg.svg" := by
  decide

/-- Witness for `C1_ids_agree_on_plain_names` at the stem `"home"`. -/
theorem C1_ids_agree_witness :
    containsPat svgSuffix "home".data = false ∧
    symbolIdOf "Icon" ("home" ++ ".svg") = componentNameOf ("home" ++ ".svg") :=
  ⟨by decide, (C1_ids_agree_on_plain_names "home" (by decide)).1⟩

/-! ### Claim C2: cleanup of stale sprite files -/

def cleanupEnvListing : String → Option (List String) :=
  fun p => if p = "/out" then some ["sprite-icons-old.svg", "keep.txt"] else none

def cleanupCfg (sp : SpritePathCfg) : OutputCfg :=
  { distPath := "/dist", spritePath := sp, spriteName := none,
    hashSuffix := true, spriteHref := none }

/-- Claim C2 (code bug), exhibit.  Directory `/out` exists and holds the
stale sprite `sprite-icons-old.svg`; the process working directory is
`/work`.  In the list-of-paths form the source removes
`resolve(dir, file)` (line 217) and the stale sprite path is targeted; in
the single-path form the source calls `fs.rm(file)` with the bare basename
(line 231), which resolves against the working directory, so the stale file
in the sprite directory is never targeted (the resulting `ENOENT` is
swallowed by the surrounding try/catch).  Missing directories are a no-op in
both forms (the `fs.access` probe, lines 206–211 and 220–225). -/
theorem C2_single_path_rm_misses_sprite_dir :
    cleanupRmTargets "/work" (cleanupCfg (.multi ["/out"])) cleanupEnvListing =
      ["/out/sprite-icons-old.svg"] ∧
    cleanupRmTargets "/work" (cleanupCfg (.single "/out")) cleanupEnvListing =
      ["/work/sprite-icons-old.svg"] ∧
    "/out/sprite-icons-old.svg" ∉
      cleanupRmTargets "/work" (cleanupCfg (.single "/out")) cleanupEnvListing ∧
    cleanupRmTargets "/work" (cleanupCfg (.single "/missing")) cleanupEnvListing = [] ∧
    cleanupRmTargets "/work" (cleanupCfg (.multi ["/missing"])) cleanupEnvListing = [] := by
  decide

/-! ### Claim C3: two-run determinism of the sprite build

The only effectful inputs of `buildSpriteSVG` are `readdir` (whose
enumeration order the OS does not fix — the source sorts precisely to erase
it) and `readFile`.  Two runs over the same directory are therefore modelled
as two listings that are permutations of each other with the same contents
per file name. -/

lemma lookup_perm_of_nodup (a : String) : ∀ {l₁ l₂ : Dir}, l₁.Perm l₂ →
    (l₁.map Prod.fst).Nodup → l₁.lookup a = l₂.lookup a := by
  intro l₁ l₂ p
  induction p with
  | nil => intro _; rfl
  | cons x p ih =>
    intro nd
    obtain ⟨k, v⟩ := x
    rw [List.map_cons] at nd
    have nd' := nd.of_cons
    cases h : a == k <;> simp [List.lookup, h, ih nd']
  | swap x y l =>
    intro nd
    obtain ⟨k₁, v₁⟩ := x
    obtain ⟨k₂, v₂⟩ := y
    rw [List.map_cons, List.map_cons] at nd
    have hne : k₂ ≠ k₁ := by
      have hm := List.nodup_cons.mp nd
      exact fun he => hm.1 (by simp [he])
    cases h1 : a == k₂ <;> cases h2 : a == k₁
    · simp [List.lookup, h1, h2]
    · simp [List.lookup, h1, h2]
    · simp [List.lookup, h1, h2]
    · exact absurd ((eq_of_beq h1).symm.trans (eq_of_beq h2)) hne
  | trans p1 _ ih1 ih2 =>
    intro nd
    exact (ih1 nd).trans (ih2 ((p1.map Prod.fst).nodup_iff.mp nd))

lemma svgFilesSorted_perm_eq {d₁ d₂ : Dir} (p : d₁.Perm d₂) :
    svgFilesSorted d₁ = svgFilesSorted d₂ := by
  apply List.eq_of_perm_of_sorted (r := strLeR)
  · exact ((List.perm_insertionSort _ _).trans ((p.map Prod.fst).filter _)).trans
      (List.perm_insertionSort _ _).symm
  · exact List.sorted_insertionSort _ _
  · exact List.sorted_insertionSort _ _

lemma spriteDocument_perm {d₁ d₂ : Dir} (suffix : String) (p : d₁.Perm d₂)
    (nd : (d₁.map Prod.fst).Nodup) :
    spriteDocument d₁ suffix = spriteDocument d₂ suffix := by
  unfold spriteDocument spriteSymbols
  rw [svgFilesSorted_perm_eq p]
  have hmap : ∀ f ∈ svgFilesSorted d₂,
      toSymbol (readFileD d₁ f) (symbolIdOf suffix f) =
        toSymbol (readFileD d₂ f) (symbolIdOf suffix f) := by
    intro f _
    unfold readFileD
    rw [lookup_perm_of_nodup f p nd]
  rw [List.map_congr_left hmap]

/-- Claim C3: with a fixed input file set (same (name, content) pairs, any
readdir enumeration order, no duplicate file names) and a fixed
configuration with content-hashing enabled, two runs produce the same
pre-optimization sprite document and the same hash-suffixed filename. -/
theorem C3_two_run_determinism (d₁ d₂ : Dir) (o : OutputCfg)
    (hperm : d₁.Perm d₂) (hnd : (d₁.map Prod.fst).Nodup)
    (_hhash : o.hashSuffix = true) :
    buildSpriteSVG d₁ o "Icon" = buildSpriteSVG d₂ o "Icon" := by
  unfold buildSpriteSVG
  rw [spriteDocument_perm "Icon" hperm hnd]

def determinismDirA : Dir :=
  [("b.svg", "<svg viewBox=\"0 0 2 2\"><b/></svg>"), ("a.svg", "<svg><a/></svg>")]

def determinismDirB : Dir :=
  [("a.svg", "<svg><a/></svg>"), ("b.svg", "<svg viewBox=\"0 0 2 2\"><b/></svg>")]

def hashCfg : OutputCfg :=
  { distPath := "dist", spritePath := .single "pub", spriteName := none,
    hashSuffix := true, spriteHref := none }

/-- Witness for `C3_two_run_determinism`: the same two files listed in the
two possible readdir orders, hashing enabled. -/
theorem C3_two_run_determinism_witness :
    determinismDirA.Perm determinismDirB ∧
    (determinismDirA.map Prod.fst).Nodup ∧
    hashCfg.hashSuffix = true ∧
    buildSpriteSVG determinismDirA hashCfg "Icon" =
      buildSpriteSVG determinismDirB hashCfg "Icon" := by
  have hp : determinismDirA.Perm determinismDirB :=
    List.Perm.swap ("a.svg", "<svg><a/></svg>")
      ("b.svg", "<svg viewBox=\"0 0 2 2\"><b/></svg>") []
  exact ⟨hp, by decide, rfl, C3_two_run_determinism _ _ _ hp (by decide) rfl⟩

/-! ### Claim C4: sprite structure -/

lemma mem_svgFilesSorted_endsSvg {d : Dir} {f : String} (hf : f ∈ svgFilesSorted d) :
    endsSvg f = true := by
  have hm : f ∈ (d.map Prod.fst).filter endsSvg :=
    (List.perm_insertionSort strLeR _).subset hf
  exact (List.mem_filter.mp hm).2

lemma svgFilesSorted_cons_nonsvg {name : String} (content : String) {d : Dir}
    (hn : endsSvg name = false) :
    svgFilesSorted ((name, content) :: d) = svgFilesSorted d := by
  unfold svgFilesSorted
  simp [hn]

lemma spriteSymbols_cons_nonsvg {name : String} (content : String) {d : Dir}
    (suffix : String) (hn : endsSvg name = false) :
    spriteSymbols ((name, content) :: d) suffix = spriteSymbols d suffix := by
  unfold spriteSymbols
  rw [svgFilesSorted_cons_nonsvg content hn]
  apply List.map_congr_left
  intro f hf
  have hsvg := mem_svgFilesSorted_endsSvg hf
  have hne : (f == name) = false := by
    apply beq_eq_false_iff_ne.mpr
    intro he
    rw [he, hn] at hsvg
    cases hsvg
  unfold readFileD
  simp [List.lookup, hne]

/-- Claim C4 (corrected): the sprite contains exactly one `<symbol>` per
`.svg` entry of the directory, rendered in ascending lexicographic filename
order inside the fixed single-`<defs>` skeleton, and entries not ending in
`".svg"` contribute nothing (they are neither rendered nor able to shadow a
read).  Symbol ids are `symbolIdOf suffix file` per file; their uniqueness is
*not* unconditional — see `C4_counterexample`. -/
theorem C4_sprite_structure (d : Dir) (suffix : String) (name content : String)
    (hn : endsSvg name = false) :
    (spriteSymbols d suffix).length = ((d.map Prod.fst).filter endsSvg).length ∧
    List.Sorted strLeR (svgFilesSorted d) ∧
    spriteSymbols d suffix =
      (svgFilesSorted d).map (fun f => toSymbol (readFileD d f) (symbolIdOf suffix f)) ∧
    spriteDocument d suffix =
      String.intercalate "\n"
        ([xmlDecl, spriteRootOpen, "<defs>"] ++ spriteSymbols d suffix ++ ["</defs>", "</svg>"]) ∧
    spriteSymbols ((name, content) :: d) suffix = spriteSymbols d suffix ∧
    spriteDocument ((name, content) :: d) suffix = spriteDocument d suffix := by
  refine ⟨?_, List.sorted_insertionSort _ _, rfl, rfl, spriteSymbols_cons_nonsvg content suffix hn, ?_⟩
  · unfold spriteSymbols
    rw [List.length_map]
    exact (List.perm_insertionSort strLeR _).length_eq
  · unfold spriteDocument
    rw [spriteSymbols_cons_nonsvg content suffix hn]

def collisionDir : Dir :=
  [("Home.svg", "<svg viewBox=\"0 0 24 24\"><h/></svg>"), ("home.svg", "<svg><g/></svg>")]

/-- Claim C4, counterexample to unconditional id uniqueness: `Home.svg` and
`home.svg` are distinct files, both contribute a symbol, and both normalize
to the symbol id `HomeIcon`, so the sprite holds two symbols with the same
id. -/
theorem C4_counterexample :
    (∀ f ∈ collisionDir.map Prod.fst, endsSvg f = true) ∧
    svgFilesSorted collisionDir = ["Home.svg", "home.svg"] ∧
    (svgFilesSorted collisionDir).map (symbolIdOf "Icon") = ["HomeIcon", "HomeIcon"] ∧
    ¬ ((svgFilesSorted collisionDir).map (symbolIdOf "Icon")).Nodup := by
  decide

/-- Witness for `C4_sprite_structure`: a non-`.svg` entry `README.md` leaves
the sprite of `determinismDirA` unchanged. -/
theorem C4_sprite_structure_witness :
    endsSvg "README.md" = false ∧
    spriteSymbols (("README.md", "x") :: determinismDirA) "Icon" =
      spriteSymbols determinismDirA "Icon" :=
  ⟨by decide, (C4_sprite_structure determinismDirA "Icon" "README.md" "x" (by decide)).2.2.2.2.1⟩

/-! ### Claim C5: the sprite filename -/

lemma toLEBytes_length (k : Nat) : ∀ n, (toLEBytes k n).length = k := by
  induction k with
  | zero => intro n; rfl
  | succ k ih => intro n; simp [toLEBytes, ih]

lemma toLEBytes_lt (k : Nat) : ∀ n, ∀ b ∈ toLEBytes k n, b < 256 := by
  induction k with
  | zero => intro n b hb; cases hb
  | succ k ih =>
    intro n b hb
    rcases hb with _ | hb
    · exact Nat.mod_lt _ (by omega)
    · exact ih _ b (by assumption)

lemma md5Digest_length (m : List Nat) : (md5Digest m).length = 16 := by
  unfold md5Digest
  simp [toLEBytes_length]

lemma md5Digest_bytes_lt (m : List Nat) : ∀ b ∈ md5Digest m, b < 256 := by
  unfold md5Digest
  intro b hb
  simp only [List.mem_append] at hb
  rcases hb with ((h | h) | h) | h <;> exact toLEBytes_lt 4 _ b h

def isHexLowerCh (c : Char) : Bool := ('0' ≤ c && c ≤ '9') || ('a' ≤ c && c ≤ 'f')

lemma hexDigitCh_isHexLower {n : Nat} (h : n < 16) : isHexLowerCh (hexDigitCh n) = true := by
  interval_cases n <;> decide

lemma bytesToHex_length (l : List Nat) : (bytesToHex l).length = 2 * l.length := by
  induction l with
  | nil => rfl
  | cons b l ih =>
    simp only [bytesToHex] at ih ⊢
    simp [ih]
    omega

lemma bytesToHex_hex : ∀ l : List Nat, (∀ b ∈ l, b < 256) →
    ∀ c ∈ bytesToHex l, isHexLowerCh c = true := by
  intro l
  induction l with
  | nil => intro _ c hc; cases hc
  | cons b l ih =>
    intro hl c hc
    have hb : b < 256 := hl b (by simp)
    have hstep : bytesToHex (b :: l) =
        hexDigitCh (b / 16) :: hexDigitCh (b % 16) :: bytesToHex l := rfl
    rw [hstep] at hc
    rcases List.mem_cons.mp hc with h | hc2
    · rw [h]; exact hexDigitCh_isHexLower (by omega)
    rcases List.mem_cons.mp hc2 with h | hc3
    · rw [h]; exact hexDigitCh_isHexLower (by omega)
    · exact ih (fun x hx => hl x (by simp [hx])) c hc3

/-- Claim C5 (corrected): with hashing disabled the filename is the
effective base name — the configured name when it is a non-empty string,
else the default `sprite-icons` (JavaScript truthiness also sends an *empty*
configured name to the default, see `C5_counterexample`); with hashing
enabled it is the base name, a dash, and the first 8 characters of the
lowercase-hex md5 of the pre-optimization document. -/
theorem C5_filename_shape (o : OutputCfg) (doc : String) :
    buildSpriteFileName o doc =
      (if o.hashSuffix then spriteBaseName o ++ "-" ++ md5Hex8 doc else spriteBaseName o) ∧
    (md5Hex8 doc).data.length = 8 ∧
    (∀ c ∈ (md5Hex8 doc).data, isHexLowerCh c = true) ∧
    (∀ s, o.spriteName = some s → s ≠ "" → spriteBaseName o = s) ∧
    (o.spriteName = none → spriteBaseName o = "sprite-icons") ∧
    (o.spriteName = some "" → spriteBaseName o = "sprite-icons") := by
  refine ⟨rfl, ?_, ?_, ?_, ?_, ?_⟩
  · show ((bytesToHex (md5Digest (strBytes doc))).take 8).length = 8
    rw [List.length_take, bytesToHex_length, md5Digest_length]
    omega
  · intro c hc
    have hc' : c ∈ bytesToHex (md5Digest (strBytes doc)) :=
      List.take_subset _ _ hc
    exact bytesToHex_hex _ (md5Digest_bytes_lt _) c hc'
  · intro s hs hne
    unfold spriteBaseName
    rw [hs]
    simp [hne]
  · intro hs
    unfold spriteBaseName
    rw [hs]
  · intro hs
    unfold spriteBaseName
    rw [hs]
    simp

def emptyNameCfg : OutputCfg :=
  { distPath := "d", spritePath := .single "p", spriteName := some "",
    hashSuffix := false, spriteHref := none }

/-- Claim C5, counterexample: with hashing disabled and the base name
*configured* as the empty string, the filename is not the configured base
name — JavaScript truthiness falls back to the default `sprite-icons`. -/
theorem C5_counterexample :
    emptyNameCfg.spriteName = some "" ∧ emptyNameCfg.hashSuffix = false ∧
    buildSpriteFileName emptyNameCfg "<svg/>" = "sprite-icons" ∧
    buildSpriteFileName emptyNameCfg "<svg/>" ≠ "" := by
  decide

/-- Witness for `C5_filename_shape` at the no-name, hashing-enabled config. -/
theorem C5_filename_shape_witness :
    spriteBaseName hashCfg = "sprite-icons" ∧ (md5Hex8 "abc").data.length = 8 :=
  ⟨(C5_filename_shape hashCfg "abc").2.2.2.2.1 rfl, (C5_filename_shape hashCfg "abc").2.1⟩

/-! ### Claim C6: the barrel file -/

/-- Claim C6 (corrected): when the per-icon component names are pairwise
distinct and none is already `"Icon"`, the barrel built from the
aggregate-extended list exports exactly one name per icon plus `"Icon"`,
with no duplicates, and its text is one default re-export line per icon
followed by the wildcard line for the aggregate module. -/
theorem C6_barrel_exports (icons : List IconData) (fn : String) (href : Option String)
    (hnd : (icons.map (·.componentName)).Nodup)
    (hni : "Icon" ∉ icons.map (·.componentName)) :
    exportedNames (buildIconComponent icons fn href).2 =
      icons.map (·.componentName) ++ ["Icon"] ∧
    (exportedNames (buildIconComponent icons fn href).2).Nodup ∧
    (exportedNames (buildIconComponent icons fn href).2).toFinset =
      (icons.map (·.componentName)).toFinset ∪ {"Icon"} ∧
    exportAll (buildIconComponent icons fn href).2 false =
      String.intercalate "\n"
        (icons.map (fun i => exportLine false i.componentName) ++
          ["export * from \x27./Icon\x27"]) := by
  have h1 : exportedNames (buildIconComponent icons fn href).2 =
      icons.map (·.componentName) ++ ["Icon"] := by
    simp [exportedNames, buildIconComponent]
  refine ⟨h1, ?_, ?_, ?_⟩
  · rw [h1]
    refine hnd.append (by simp) ?_
    intro a ha hb
    simp only [List.mem_singleton] at hb
    subst hb
    exact hni ha
  · rw [h1]
    simp
  · simp only [exportAll, buildIconComponent, List.map_append, List.map_cons,
      List.map_nil]
    have : exportLine false "Icon" = "export * from \x27./Icon\x27" := rfl
    rw [this]

def dupNamesDir : Dir :=
  [("foo-bar.svg", "<svg><a/></svg>"), ("fooBar.svg", "<svg><b/></svg>")]

/-- Claim C6, counterexample: `foo-bar.svg` and `fooBar.svg` both normalize
to component name `FooBarIcon`, so the barrel contains two identical export
statements of the same name — a duplicate, not one statement per name. -/
theorem C6_counterexample :
    (getIcons dupNamesDir "" "sprite-icons").map (·.componentName) =
      ["FooBarIcon", "FooBarIcon"] ∧
    ¬ (exportedNames
        (buildIconComponent (getIcons dupNamesDir "" "sprite-icons") "sprite-icons" none).2).Nodup ∧
    exportAll
        (buildIconComponent (getIcons dupNamesDir "" "sprite-icons") "sprite-icons" none).2
        false =
      "export \x7b default as FooBarIcon \x7d from \x27./FooBarIcon\x27\nexport \x7b default as FooBarIcon \x7d from \x27./FooBarIcon\x27\nexport * from \x27./Icon\x27" := by
  decide

/-- Witness for `C6_barrel_exports` on the two-icon directory. -/
theorem C6_barrel_exports_witness :
    ((getIcons determinismDirA "" "sprite-icons").map (·.componentName)).Nodup ∧
    exportedNames
        (buildIconComponent (getIcons determinismDirA "" "sprite-icons") "sprite-icons" none).2 =
      (getIcons determinismDirA "" "sprite-icons").map (·.componentName) ++ ["Icon"] :=
  ⟨by decide, (C6_barrel_exports _ _ _ (by decide) (by decide)).1⟩

/-! ### Claim C7: the aggregate component's name list -/

lemma stripIcon_of_append (p : String) : stripIconSuffixS (p ++ "Icon") = p := by
  have hd : (p ++ "Icon").data = p.data ++ "Icon".data := by
    cases p
    rfl
  unfold stripIconSuffixS
  rw [hd, strip_append]

/-- Claim C7: `ICON_NAME_LIST` is computed from the per-file icons *before*
the aggregate is appended: element for element it is the component names
with the trailing `"Icon"` stripped (for pipeline icons, exactly the
PascalCased stems), its length is the number of per-file icons (no entry for
the aggregate), the rendered list text appears verbatim in the aggregate
component source, and the aggregate is only appended to the returned list
afterwards. -/
theorem C7_icon_name_list (d : Dir) (href fn : String) (sfx : Option String) :
    iconNamesOf (getIcons d href fn) =
      (getIcons d href fn).map (fun i => stripIconSuffixS i.componentName) ∧
    iconNamesOf (getIcons d href fn) =
      (svgFilesUnsorted d).map (fun f => pascalCase ⟨stripSuffixIfL f.data svgSuffix⟩) ∧
    (iconNamesOf (getIcons d href fn)).length = (getIcons d href fn).length ∧
    (∃ pre post : String,
      buildIconComponentSource (getIcons d href fn) fn sfx =
        pre ++ renderNameList (iconNamesOf (getIcons d href fn)) ++ post) ∧
    (buildIconComponent (getIcons d href fn) fn sfx).2 =
      getIcons d href fn ++
        [{ componentName := "Icon",
           svg := buildIconComponentSource (getIcons d href fn) fn sfx }] := by
  refine ⟨rfl, ?_, by simp [iconNamesOf], ?_, rfl⟩
  · unfold iconNamesOf getIcons
    rw [List.map_map]
    apply List.map_congr_left
    intro f _
    show stripIconSuffixS (componentNameOf f) = pascalCase ⟨stripSuffixIfL f.data svgSuffix⟩
    unfold componentNameOf
    exact stripIcon_of_append _
  · exact ⟨iconComponentPre, iconComponentPost fn sfx, rfl⟩

/-! ### Claim C8: fail-fast on transform failure -/

def trFails (r : Except String String) : Bool :=
  match r with
  | .error _ => true
  | .ok _ => false

/-- Claim C8: if the transform fails for some icon, the icon-generation
stage logs `Error building <componentName>` for a failing icon, re-throws
that icon's original error, and returns no write list (the `Except` is an
`error`, never a partial `ok`). -/
theorem C8_transform_failure_aborts (tr : String → String → Except String String)
    (distPath : String) (icons : List IconData)
    (h : ∃ i ∈ icons, trFails (tr i.svg i.componentName) = true) :
    ∃ i ∈ icons, ∃ e, tr i.svg i.componentName = Except.error e ∧
      buildIconsRun tr distPath icons =
        (["Error building " ++ i.componentName], Except.error e) := by
  induction icons with
  | nil =>
    rcases h with ⟨i, hi, _⟩
    cases hi
  | cons j rest ih =>
    cases htr : tr j.svg j.componentName with
    | error e =>
      exact ⟨j, by simp, e, htr, by simp [buildIconsRun, htr]⟩
    | ok content =>
      have h' : ∃ i ∈ rest, trFails (tr i.svg i.componentName) = true := by
        rcases h with ⟨i, hi, he⟩
        rcases List.mem_cons.mp hi with rfl | hi'
        · rw [htr] at he
          cases he
        · exact ⟨i, hi', he⟩
      rcases ih h' with ⟨i, hi, e, he, hrun⟩
      refine ⟨i, by simp [hi], e, he, ?_⟩
      simp [buildIconsRun, htr, hrun]

def failingTransform : String → String → Except String String :=
  fun svg name => if name = "BIcon" then .error "syntax error" else .ok svg

/-- Witness for `C8_transform_failure_aborts`: the transform fails on
`BIcon`, the stage logs it, re-throws `"syntax error"`, and yields no write
list. -/
theorem C8_transform_failure_witness :
    (∃ i ∈ getIcons determinismDirA "" "sprite-icons",
        trFails (failingTransform i.svg i.componentName) = true) ∧
    ∃ i ∈ getIcons determinismDirA "" "sprite-icons",
      ∃ e, failingTransform i.svg i.componentName = Except.error e ∧
        buildIconsRun failingTransform "dist" (getIcons determinismDirA "" "sprite-icons") =
          (["Error building " ++ i.componentName], Except.error e) :=
  ⟨by decide, C8_transform_failure_aborts failingTransform "dist" _ (by decide)⟩

/-! ### Claim C9: the symbol synthesizer is total and silently no-ops on
non-matching markup -/

/-- Decidable scan: does `/<svg[^>]+>/` match anywhere in `l`?  Mirrors the
positions tried by `replaceSvgOpen`. -/
def hasSvgOpen : List Char → Bool
  | [] => false
  | c :: rest => (matchSvgOpenAt (c :: rest)).isSome || hasSvgOpen rest

/-- Decidable scan for the quoted-attribute patterns (`viewBox="..."`,
`xmlns="..."`). -/
def hasKeyQuoted (key : List Char) : List Char → Bool
  | [] => false
  | c :: rest => (matchKeyQuotedAt key (c :: rest)).isSome || hasKeyQuoted key rest

lemma replaceSvgOpen_no_match (rep : List Char) : ∀ l : List Char,
    hasSvgOpen l = false → replaceSvgOpen rep l = l := by
  intro l
  induction l with
  | nil => intro _; rfl
  | cons c rest ih =>
    intro h
    simp only [hasSvgOpen, Bool.or_eq_false_iff] at h
    unfold replaceSvgOpen
    rcases hm : matchSvgOpenAt (c :: rest) with _ | n
    · rw [ih h.2]
    · rw [hm] at h
      cases h.1

lemma replaceKeyQuoted_no_match (key rep : List Char) : ∀ l : List Char,
    hasKeyQuoted key l = false → replaceKeyQuoted key rep l = l := by
  intro l
  induction l with
  | nil => intro _; rfl
  | cons c rest ih =>
    intro h
    simp only [hasKeyQuoted, Bool.or_eq_false_iff] at h
    unfold replaceKeyQuoted
    rcases hm : matchKeyQuotedAt key (c :: rest) with _ | n
    · rw [ih h.2]
    · rw [hm] at h
      cases h.1

lemma findKeyQuoted_no_match (key : List Char) : ∀ l : List Char,
    hasKeyQuoted key l = false → findKeyQuoted key l = none := by
  intro l
  induction l with
  | nil => intro _; rfl
  | cons c rest ih =>
    intro h
    simp only [hasKeyQuoted, Bool.or_eq_false_iff] at h
    unfold findKeyQuoted
    rcases hm : matchKeyQuotedAt key (c :: rest) with _ | n
    · rw [ih h.2]
    · rw [hm] at h
      cases h.1

lemma replaceFirstL_no_occurrence (pat rep : List Char) : ∀ l : List Char,
    containsPat pat l = false → replaceFirstL l pat rep = l := by
  intro l
  induction l with
  | nil => intro _; rfl
  | cons c rest ih =>
    intro h
    simp only [containsPat, Bool.or_eq_false_iff] at h
    unfold replaceFirstL
    rw [if_neg (by simp [h.1]), ih h.2]

/-- Claim C9: symbol synthesis is a total function (it is defined for every
markup string and raises nothing); when the markup has no `viewBox="..."`
attribute the extracted viewBox text is the empty string, so the emitted
open tag is `<symbol id="..." >` with no viewBox; and when none of the
`<svg[^>]+>`, `</svg>`, `xmlns="..."` patterns matches, every rewrite is a
no-op and the markup passes through unchanged (silently, not rejected). -/
theorem C9_synthesis_total_noop (content symbolId : String)
    (hOpen : hasSvgOpen content.data = false)
    (hClose : containsPat "</svg>".data content.data = false)
    (hXmlns : hasKeyQuoted xmlnsKey content.data = false) :
    toSymbol content symbolId = content ∧
    (∀ c : String, hasKeyQuoted viewBoxKey c.data = false → viewBoxOf c = "") := by
  constructor
  · show (⟨replaceKeyQuoted xmlnsKey []
        (replaceFirstL
          (replaceSvgOpen (symbolOpenTag symbolId (viewBoxOf content)).data content.data)
          "</svg>".data "</symbol>".data)⟩ : String) = content
    rw [replaceSvgOpen_no_match _ _ hOpen, replaceFirstL_no_occurrence _ _ _ hClose,
      replaceKeyQuoted_no_match _ _ _ hXmlns]
  · intro c hc
    unfold viewBoxOf
    rw [findKeyQuoted_no_match _ _ hc]
    rfl

/-- Witness for `C9_synthesis_total_noop`: markup that matches none of the
patterns (note `<svg>` with no attributes does not match `<svg[^>]+>`) is
passed through verbatim. -/
theorem C9_synthesis_total_noop_witness :
    hasSvgOpen "<svg>hello".data = false ∧
    toSymbol "<svg>hello" "XIcon" = "<svg>hello" ∧
    viewBoxOf "<svg>hello" = "" :=
  ⟨by decide,
   (C9_synthesis_total_noop "<svg>hello" "XIcon" (by decide) (by decide) (by decide)).1,
   (C9_synthesis_total_noop "<svg>hello" "XIcon" (by decide) (by decide) (by decide)).2
     "<svg>hello" (by decide)⟩

/-! ### Claim C10: a directory with no `.svg` files -/

/-- Claim C10: with no `.svg` entries the build still produces all three
output shapes: the sprite document is the bare skeleton with an empty
`<defs>` block, the aggregate component's `ICON_NAME_LIST` renders as `[]`,
and the barrel file is exactly the single wildcard re-export of the
aggregate module. -/
theorem C10_empty_input (d : Dir) (href fn : String) (sfx : Option String) (o : OutputCfg)
    (h : (d.map Prod.fst).filter endsSvg = []) :
    spriteSymbols d "Icon" = [] ∧
    spriteDocument d "Icon" =
      "<?xml version=\"1.0\" encoding=\"UTF-8\"?>\n<svg xmlns=\"http://www.w3.org/2000/svg\" xmlns:xlink=\"http://www.w3.org/1999/xlink\">\n<defs>\n</defs>\n</svg>" ∧
    getIcons d href fn = [] ∧
    iconNamesOf (getIcons d href fn) = [] ∧
    renderNameList (iconNamesOf (getIcons d href fn)) = "[]" ∧
    exportAll (buildIconComponent (getIcons d href fn) fn sfx).2 false =
      "export * from \x27./Icon\x27" ∧
    (buildSpriteIcons d o).indexFile = "export * from \x27./Icon\x27" ∧
    (buildSpriteIcons d o).allIcons.map (·.componentName) = ["Icon"] := by
  have hsorted : svgFilesSorted d = [] := by
    unfold svgFilesSorted
    rw [h]
    rfl
  have hsym : spriteSymbols d "Icon" = [] := by
    unfold spriteSymbols
    rw [hsorted]
    rfl
  have hg : ∀ a b : String, getIcons d a b = [] := by
    intro a b
    unfold getIcons svgFilesUnsorted
    rw [h]
    rfl
  have hdoc : spriteDocument d "Icon" =
      "<?xml version=\"1.0\" encoding=\"UTF-8\"?>\n<svg xmlns=\"http://www.w3.org/2000/svg\" xmlns:xlink=\"http://www.w3.org/1999/xlink\">\n<defs>\n</defs>\n</svg>" := by
    unfold spriteDocument
    rw [hsym]
    decide
  have hexp : ∀ (a : String) (b : Option String),
      exportAll (buildIconComponent (getIcons d href a) a b).2 false =
        "export * from \x27./Icon\x27" := by
    intro a b
    rw [hg href a]
    rfl
  refine ⟨hsym, hdoc, hg href fn, by rw [hg href fn]; rfl, by rw [hg href fn]; rfl, ?_, ?_, ?_⟩
  · rw [hg href fn]
    rfl
  · show exportAll (buildIconComponent (getIcons d (o.spriteHref.getD "") _) _ o.spriteHref).2
        false = "export * from \x27./Icon\x27"
    rw [hg]
    rfl
  · show ((getIcons d (o.spriteHref.getD "") _ ++ _).map (·.componentName)) = ["Icon"]
    rw [hg]
    rfl

def emptyishDir : Dir := [("README.md", "not an svg")]

/-- Witness for `C10_empty_input` on a directory holding only a non-SVG
file. -/
theorem C10_empty_input_witness :
    ((emptyishDir.map Prod.fst).filter endsSvg = []) ∧
    spriteDocument emptyishDir "Icon" =
      "<?xml version=\"1.0\" encoding=\"UTF-8\"?>\n<svg xmlns=\"http://www.w3.org/2000/svg\" xmlns:xlink=\"http://www.w3.org/1999/xlink\">\n<defs>\n</defs>\n</svg>" ∧
    (buildSpriteIcons emptyishDir hashCfg).indexFile = "export * from \x27./Icon\x27" :=
  ⟨by decide,
   (C10_empty_input emptyishDir "" "sprite-icons" none hashCfg (by decide)).2.1,
   (C10_empty_input emptyishDir "" "sprite-icons" none hashCfg (by decide)).2.2.2.2.2.2.1⟩
